import Mathlib

/-!
Shallow embedding of the symptom-triage engine of the
AWS_CAPSTONE_CARE_4 clinic application, together with the
chat-assistant HTTP handlers that invoke it.

The repository contains three revisions of the engine:
  * `analyze_symptoms` in `app.py`        (embedded as `analyzeApp`),
  * `analyze_symptoms` in `app_aws.py`    (embedded as `analyzeAws`),
  * `AIService.analyze_symptoms` in `services/ai_service.py`
                                          (embedded as `aiAnalyze`).
Strings are modelled as `List Char`; Python's `needle in haystack`
substring test is `occursIn`, `str.lower()` is `lowerStr` (Python's
`lower` is Unicode-wide but the taxonomy phrases are pure ASCII, where
`Char.toLower` agrees with it), `str.strip()` is `stripStr`,
`str.count(' ')` is `countSpaces`, and `str.split()` is `splitWords`.
-/

/-- Strings of the Python program, modelled as lists of characters. -/
abbrev Str := List Char

/-- `startsWith needle hay`: `needle` is a prefix of `hay`. -/
def startsWith : Str → Str → Bool
  | [], _ => true
  | _ :: _, [] => false
  | c :: cs, d :: ds => c = d && startsWith cs ds

/-- Python's `needle in haystack` substring containment test. -/
def occursIn (needle : Str) : Str → Bool
  | [] => needle.isEmpty
  | c :: rest => startsWith needle (c :: rest) || occursIn needle rest

/-- Python's `str.lower()` (ASCII case folding, which agrees with
Python on every phrase of the taxonomy). -/
def lowerStr (s : Str) : Str := s.map Char.toLower

/-- The whitespace characters stripped by Python's `str.strip()`. -/
def isSpaceChar (c : Char) : Bool :=
  c = ' ' || c = '\t' || c = '\n' || c = '\x0d' || c = '\x0b' || c = '\x0c'

/-- Python's `str.strip()`: remove leading and trailing whitespace. -/
def stripStr (s : Str) : Str :=
  ((s.dropWhile isSpaceChar).reverse.dropWhile isSpaceChar).reverse

/-- Python's `str.count(' ')`: the number of space characters. -/
def countSpaces (s : Str) : Nat := s.countP (fun c => c = ' ')

/-- One step of `splitWords`, consuming a character from the right. -/
def splitWordsStep (c : Char) (acc : List Str) : List Str :=
  if isSpaceChar c then [] :: acc
  else
    match acc with
    | [] => [[c]]
    | w :: ws => (c :: w) :: ws

/-- Python's `str.split()`: split on whitespace, dropping empty words. -/
def splitWords (s : Str) : List Str :=
  (s.foldr splitWordsStep []).filter (fun w => ¬ w.isEmpty)

/-- Python's `sep.join(parts)`. -/
def joinSep (sep : Str) : List Str → Str
  | [] => []
  | [w] => w
  | w :: ws => w ++ sep ++ joinSep sep ws

/-- Helper of `dedupKeepFirst`, carrying the `seen` set of the Python
loop. -/
def dedupSeen (seen : List Str) : List Str → List Str
  | [] => []
  | x :: xs => if x ∈ seen then dedupSeen seen xs else x :: dedupSeen (x :: seen) xs

/-- The dedup-preserving-first-occurrence loop of
`generate_health_tips`. -/
def dedupKeepFirst (l : List Str) : List Str := dedupSeen [] l

/-! ## The emergency-indicator tables -/

/-- `emergency_indicators` of `app.py` (insertion order preserved). -/
def emergencyIndicatorsApp : List (Str × Nat) :=
  [(("chest pain").data, 3), (("heart attack").data, 5), (("stroke").data, 5),
   (("seizure").data, 4), (("difficulty breathing").data, 4),
   (("shortness of breath").data, 4), (("severe bleeding").data, 5),
   (("unconscious").data, 5), (("severe allergic").data, 4),
   (("anaphylaxis").data, 5), (("poisoning").data, 5), (("overdose").data, 5),
   (("severe trauma").data, 5), (("severe burns").data, 5),
   (("loss of consciousness").data, 5), (("severe head injury").data, 4),
   (("drowning").data, 5), (("choking").data, 4), (("unable to breathe").data, 5),
   (("severe abdominal pain").data, 3), (("rupture").data, 4),
   (("serious injury").data, 3), (("bleeding heavily").data, 4),
   (("gunshot").data, 5), (("stab wound").data, 4)]

/-- `emergency_indicators` of `app_aws.py`: the `app.py` table extended
with seven further phrases. -/
def emergencyIndicatorsAws : List (Str × Nat) :=
  emergencyIndicatorsApp ++
  [(("coughing blood").data, 4), (("vomiting blood").data, 4),
   (("sudden weakness").data, 3), (("slurred speech").data, 4),
   (("confusion").data, 3), (("blue lips").data, 4), (("severe pain").data, 3)]

/-- The accumulated weight of every emergency phrase occurring in the
lower-cased text (the `emergency_score` loop; the loop accumulates left
to right, which computes this same sum). -/
def emergencyScore (tbl : List (Str × Nat)) (t : Str) : Nat :=
  match tbl with
  | [] => 0
  | (p, w) :: rest => (if occursIn p t then w else 0) + emergencyScore rest t

/-- The `critical_phrases` list (identical in both revisions). -/
def criticalPhrases : List Str :=
  [("severe").data, ("sudden").data, ("critical").data,
   ("emergency").data, ("urgent").data, ("immediate").data]

/-- `has_critical_modifier`: some critical phrase occurs in the text. -/
def hasCriticalModifier (t : Str) : Bool :=
  criticalPhrases.any (fun p => occursIn p t)

/-- The emergency flag: `is_emergency = emergency_score >= 4`, then
overridden to `True` when a critical modifier occurs and the score is
at least 2. -/
def emergencyFlag (score : Nat) (t : Str) : Bool :=
  if hasCriticalModifier t && decide (2 ≤ score) then true
  else decide (4 ≤ score)

/-- The severity computation: `min(score*15, 100)`, plus 10 (capped at
100) when the text has more than ten spaces. -/
def severityScoreOf (score : Nat) (t : Str) : Nat :=
  if 10 < countSpaces t then min (min (score * 15) 100 + 10) 100
  else min (score * 15) 100

/-! ## Specialization matching and ranking -/

/-- One entry of the `matching_specializations` list: the dict
`{name, score, keywords_matched}` built in the loop, together with the
position `idx` of the specialty in the taxonomy's declared order
(implicit in the Python dict iteration; recorded here so order
properties can be stated). -/
structure MatchEntry where
  name : Str
  score : Nat
  keywords_matched : Nat
  idx : Nat
  deriving DecidableEq, Repr

/-- The number of profile keywords occurring in the text:
`sum(1 for keyword in keywords if keyword in text)`. -/
def countMatches (kws : List Str) (t : Str) : Nat :=
  kws.countP (fun k => occursIn k t)

/-- The specialization-matching loop, iterating over the taxonomy
from position `i` and keeping exactly the profiles with a positive
keyword-match count. -/
def matchingSpecsFrom (t : Str) : List (Str × List Str) → Nat → List MatchEntry
  | [], _ => []
  | (name, kws) :: rest, i =>
    (if 0 < countMatches kws t
     then [⟨name, countMatches kws t, countMatches kws t, i⟩] else []) ++
    matchingSpecsFrom t rest (i + 1)

/-- `matching_specializations` for a given taxonomy and text. -/
def matchingSpecs (tbl : List (Str × List Str)) (t : Str) : List MatchEntry :=
  matchingSpecsFrom t tbl 0

/-- Insert an entry into a descending-sorted list, in front of the
first entry with a score not larger than its own.  Since the entry
being inserted precedes the others in the original list, this is the
stable-sort insertion step. -/
def insertDesc (x : MatchEntry) : List MatchEntry → List MatchEntry
  | [] => [x]
  | y :: ys => if y.score ≤ x.score then x :: y :: ys else y :: insertDesc x ys

/-- Stable descending sort by `score`, modelling Python's stable
`list.sort(key=lambda x: x["score"], reverse=True)`: the output of any
stable descending sort is the unique permutation that is sorted by
score with equal-score entries in their original relative order, and
this insertion sort produces exactly that permutation. -/
def sortDesc : List MatchEntry → List MatchEntry
  | [] => []
  | x :: xs => insertDesc x (sortDesc xs)

/-- The synthetic fallback entry
`{name: "General Practice", score: 1, keywords_matched: 0}`. -/
def generalPracticeEntry : MatchEntry :=
  ⟨("General Practice").data, 1, 0, 0⟩

/-- `top_specializations`: the first three entries of the sorted
matching list, or the General Practice fallback when none matched. -/
def topSpecializations (tbl : List (Str × List Str)) (t : Str) : List MatchEntry :=
  if ((sortDesc (matchingSpecs tbl t)).take 3).isEmpty then [generalPracticeEntry]
  else (sortDesc (matchingSpecs tbl t)).take 3

/-- One formatted specialization `{name, reason}` of the result. -/
structure SpecRec where
  name : Str
  reason : Str
  deriving DecidableEq, Repr

/-- The `specialization_map[name]["keywords"]` lookup.  Every name fed
to it originates from the table itself, so the `[]` default of the
`none` branch is unreachable. -/
def lookupKeywords (tbl : List (Str × List Str)) (n : Str) : List Str :=
  ((tbl.find? (fun p => decide (p.1 = n))).map (fun p => p.2)).getD []

/-- The reason-string generation of the formatting loop. -/
def mkReason (tbl : List (Str × List Str)) (t : Str) (n : Str) : Str :=
  if n = ("General Practice").data then
    ("For general health evaluation and preliminary diagnosis").data
  else
    let found := (lookupKeywords tbl n).filter (fun k => occursIn k t)
    if found.isEmpty then ("Recommended for overall assessment").data
    else
      ("Based on your mention of ").data ++ joinSep ((", ").data) (found.take 2) ++
        (if 2 < found.length then
          (" and other ").data ++ lowerStr n ++ (" symptoms").data
        else [])

/-- The `formatted_specializations` loop. -/
def formatSpecs (tbl : List (Str × List Str)) (t : Str)
    (tops : List MatchEntry) : List SpecRec :=
  tops.map (fun e => ⟨e.name, mkReason tbl t e.name⟩)

/-- `specialization_map` of `app.py` (declared order preserved). -/
def specializationMapApp : List (Str × List Str) :=
  [(("Cardiology").data,
    [("chest pain").data, ("heart").data, ("palpitation").data, ("arrhythmia").data,
     ("hypertension").data, ("blood pressure").data, ("cardiac").data, ("angina").data,
     ("irregular heartbeat").data, ("shortness of breath").data]),
   (("Neurology").data,
    [("headache").data, ("migraine").data, ("dizziness").data, ("stroke").data,
     ("seizure").data, ("tremor").data, ("nerve").data, ("neuropathy").data,
     ("numbness").data, ("paralysis").data, ("vertigo").data, ("brain").data]),
   (("Orthopedics").data,
    [("fracture").data, ("bone").data, ("joint").data, ("arthritis").data,
     ("back pain").data, ("knee pain").data, ("shoulder pain").data, ("ankle").data,
     ("sprain").data, ("ligament").data]),
   (("Gastroenterology").data,
    [("stomach").data, ("abdominal").data, ("nausea").data, ("vomiting").data,
     ("diarrhea").data, ("constipation").data, ("acid reflux").data, ("heartburn").data,
     ("liver").data, ("digestive").data, ("intestinal").data]),
   (("Pulmonology").data,
    [("cough").data, ("asthma").data, ("lung").data, ("bronchitis").data,
     ("pneumonia").data, ("respiratory").data, ("breathing").data, ("wheezing").data,
     ("shortness of breath").data, ("tuberculosis").data]),
   (("Dermatology").data,
    [("rash").data, ("skin").data, ("acne").data, ("eczema").data, ("psoriasis").data,
     ("mole").data, ("wart").data, ("itching").data, ("fungal").data, ("allergy").data]),
   (("Ophthalmology").data,
    [("eye").data, ("vision").data, ("blind").data, ("blurred").data, ("eye pain").data,
     ("glaucoma").data, ("cataract").data, ("contact lens").data, ("glasses").data]),
   (("ENT (Otolaryngology)").data,
    [("ear").data, ("nose").data, ("throat").data, ("hearing").data, ("tinnitus").data,
     ("sinus").data, ("sinusitis").data, ("sore throat").data, ("hoarse").data,
     ("vertigo").data]),
   (("Pediatrics").data,
    [("baby").data, ("child").data, ("infant").data, ("kid").data, ("vaccination").data,
     ("fever").data, ("crying").data, ("development").data, ("growth").data]),
   (("Psychiatry").data,
    [("depression").data, ("anxiety").data, ("stress").data, ("panic").data,
     ("mental").data, ("psychological").data, ("emotional").data, ("insomnia").data,
     ("sleep").data, ("mood").data])]

/-- `specialization_map` of `app_aws.py` (declared order preserved). -/
def specializationMapAws : List (Str × List Str) :=
  [(("Cardiology").data,
    [("chest pain").data, ("heart").data, ("palpitation").data, ("arrhythmia").data,
     ("hypertension").data, ("blood pressure").data, ("cardiac").data, ("angina").data,
     ("irregular heartbeat").data, ("shortness of breath").data, ("cholesterol").data,
     ("coronary").data, ("cardiovascular").data]),
   (("Neurology").data,
    [("headache").data, ("migraine").data, ("dizziness").data, ("stroke").data,
     ("seizure").data, ("tremor").data, ("nerve").data, ("neuropathy").data,
     ("numbness").data, ("paralysis").data, ("vertigo").data, ("brain").data,
     ("memory loss").data, ("confusion").data, ("tingling").data]),
   (("Orthopedics").data,
    [("fracture").data, ("bone").data, ("joint").data, ("arthritis").data,
     ("back pain").data, ("knee pain").data, ("shoulder pain").data, ("ankle").data,
     ("sprain").data, ("ligament").data, ("muscle pain").data, ("hip").data,
     ("neck pain").data, ("spine").data]),
   (("Gastroenterology").data,
    [("stomach").data, ("abdominal").data, ("nausea").data, ("vomiting").data,
     ("diarrhea").data, ("constipation").data, ("acid reflux").data, ("heartburn").data,
     ("liver").data, ("digestive").data, ("intestinal").data, ("bloating").data,
     ("gas").data, ("ulcer").data, ("ibs").data]),
   (("Pulmonology").data,
    [("cough").data, ("asthma").data, ("lung").data, ("bronchitis").data,
     ("pneumonia").data, ("respiratory").data, ("breathing").data, ("wheezing").data,
     ("shortness of breath").data, ("tuberculosis").data, ("copd").data,
     ("chest congestion").data]),
   (("Dermatology").data,
    [("rash").data, ("skin").data, ("acne").data, ("eczema").data, ("psoriasis").data,
     ("mole").data, ("wart").data, ("itching").data, ("fungal").data, ("allergy").data,
     ("hives").data, ("lesion").data, ("blister").data, ("sunburn").data]),
   (("Ophthalmology").data,
    [("eye").data, ("vision").data, ("blind").data, ("blurred").data, ("eye pain").data,
     ("glaucoma").data, ("cataract").data, ("contact lens").data, ("glasses").data,
     ("double vision").data, ("red eyes").data, ("eye discharge").data]),
   (("ENT (Otolaryngology)").data,
    [("ear").data, ("nose").data, ("throat").data, ("hearing").data, ("tinnitus").data,
     ("sinus").data, ("sinusitis").data, ("sore throat").data, ("hoarse").data,
     ("vertigo").data, ("earache").data, ("nasal").data, ("congestion").data,
     ("tonsils").data]),
   (("Pediatrics").data,
    [("baby").data, ("child").data, ("infant").data, ("kid").data, ("vaccination").data,
     ("fever").data, ("crying").data, ("development").data, ("growth").data,
     ("newborn").data, ("toddler").data, ("teething").data]),
   (("Psychiatry").data,
    [("depression").data, ("anxiety").data, ("stress").data, ("panic").data,
     ("mental").data, ("psychological").data, ("emotional").data, ("insomnia").data,
     ("sleep").data, ("mood").data, ("bipolar").data, ("ptsd").data, ("trauma").data]),
   (("Endocrinology").data,
    [("diabetes").data, ("thyroid").data, ("hormone").data, ("blood sugar").data,
     ("insulin").data, ("metabolic").data, ("obesity").data, ("weight gain").data,
     ("weight loss").data, ("fatigue").data, ("growth").data]),
   (("Urology").data,
    [("urinary").data, ("bladder").data, ("kidney").data, ("prostate").data,
     ("urine").data, ("frequent urination").data, ("kidney stone").data, ("uti").data,
     ("incontinence").data]),
   (("Gynecology").data,
    [("menstrual").data, ("period").data, ("pregnancy").data, ("pelvic").data,
     ("ovarian").data, ("uterine").data, ("vaginal").data, ("reproductive").data,
     ("menopause").data, ("pms").data])]

/-! ## Response generation and the engines -/

/-- `generate_assistant_response` of `app.py` (the `symptoms` argument
of the Python function is unused there and omitted here). -/
def generateAssistantResponseApp (isEmg : Bool) (specs : List SpecRec)
    (severity : Nat) : Str :=
  if isEmg then
    ("🚨 <strong>URGENT: Please Seek Immediate Medical Attention</strong><br><br>").data ++
    ("Based on your description, this appears to be a medical emergency. ").data ++
    ("Please call emergency services (911 in the US) or visit the nearest emergency room immediately. ").data ++
    ("Do not wait for an appointment.<br><br>").data ++
    ("Your symptoms indicate potential ").data ++
    (match specs with
     | [] => ("medical").data
     | sp :: _ => sp.name) ++
    (" concerns.").data
  else
    ("<strong>Thank you for sharing your symptoms.</strong><br><br>").data ++
    (if 70 ≤ severity then
      ("Your symptoms appear to be significant and require prompt medical attention. ").data ++
      ("We recommend scheduling an appointment with a specialist as soon as possible.<br><br>").data
     else if 40 ≤ severity then
      ("Your symptoms suggest you would benefit from a medical evaluation. ").data ++
      ("Please consider scheduling an appointment within the next few days.<br><br>").data
     else
      ("Based on your description, it\x27s good to get these symptoms evaluated by a medical professional. ").data ++
      ("You can schedule a consultation when convenient.<br><br>").data) ++
    (if specs.isEmpty then []
     else
      ("<strong>Recommended specialists:</strong> ").data ++
      joinSep ((", ").data) ((specs.take 2).map (fun sp => sp.name)) ++
      (".<br><br>").data) ++
    ("<em>Note: This is an AI-powered preliminary assessment only and does not replace ").data ++
    ("professional medical advice. Always consult with a qualified healthcare provider.</em>").data

/-- `generate_assistant_response` of `app_aws.py`. -/
def generateAssistantResponseAws (isEmg : Bool) (specs : List SpecRec)
    (severity : Nat) : Str :=
  if isEmg then
    ("🚨 <strong>URGENT: Please Seek Immediate Medical Attention</strong><br><br>").data ++
    ("Based on your description, this appears to be a medical emergency. ").data ++
    ("Please call emergency services (911 in the US) or visit the nearest emergency room immediately. ").data ++
    ("Do not wait for an appointment.<br><br>").data ++
    ("Your symptoms indicate potential ").data ++
    (match specs with
     | [] => ("medical").data
     | sp :: _ => sp.name) ++
    (" concerns.").data
  else
    ("<strong>Thank you for sharing your symptoms.</strong><br><br>").data ++
    (if 70 ≤ severity then
      ("Your symptoms appear to be significant and require prompt medical attention. ").data ++
      ("We recommend scheduling an appointment with a specialist as soon as possible.<br><br>").data
     else if 40 ≤ severity then
      ("Your symptoms suggest you would benefit from a medical evaluation. ").data ++
      ("Please consider scheduling an appointment within the next few days.<br><br>").data
     else
      ("Based on your description, it\x27s good to get these symptoms evaluated by a medical professional. ").data ++
      ("You can schedule a consultation when convenient.<br><br>").data) ++
    (if specs.isEmpty then []
     else
      ("<strong>Recommended specialists:</strong> ").data ++
      joinSep ((", ").data) ((specs.take 2).map (fun sp => sp.name)) ++
      (".<br><br>").data) ++
    ("<strong>What you can do:</strong><br>").data ++
    ("• Keep a symptom diary noting when symptoms occur<br>").data ++
    ("• Stay hydrated and get adequate rest<br>").data ++
    ("• Avoid self-medication without consulting a doctor<br>").data ++
    ("• Book an appointment through our platform for proper diagnosis<br><br>").data ++
    ("<em>Note: This is an AI-powered preliminary assessment only and does not replace ").data ++
    ("professional medical advice. Always consult with a qualified healthcare provider for proper diagnosis and treatment.</em>").data

/-- `generate_health_tips` of `app_aws.py`. -/
def generateHealthTips (symptoms : Str) (isEmg : Bool) : List Str :=
  if isEmg then
    [("Seek immediate medical attention").data,
     ("Call emergency services (911)").data,
     ("Do not delay treatment").data]
  else
    let tips :=
      [("Monitor your symptoms and note any changes").data,
       ("Stay well-hydrated by drinking plenty of water").data] ++
      (if [("headache").data, ("migraine").data].any (fun w => occursIn w symptoms) then
        [("Rest in a quiet, dark room").data,
         ("Apply cold compress to forehead").data,
         ("Avoid bright screens").data] else []) ++
      (if [("fever").data, ("temperature").data].any (fun w => occursIn w symptoms) then
        [("Get plenty of rest").data,
         ("Use over-the-counter fever reducers if appropriate").data,
         ("Monitor temperature regularly").data] else []) ++
      (if [("cough").data, ("cold").data, ("congestion").data].any (fun w => occursIn w symptoms) then
        [("Use a humidifier").data,
         ("Drink warm fluids").data,
         ("Get adequate rest").data] else []) ++
      (if [("stomach").data, ("nausea").data, ("digestive").data].any (fun w => occursIn w symptoms) then
        [("Eat bland, easy-to-digest foods").data,
         ("Avoid spicy or fatty foods").data,
         ("Try small, frequent meals").data] else []) ++
      (if [("pain").data, ("ache").data].any (fun w => occursIn w symptoms) then
        [("Apply ice or heat as appropriate").data,
         ("Avoid strenuous activity").data,
         ("Maintain good posture").data] else []) ++
      (if [("stress").data, ("anxiety").data, ("sleep").data].any (fun w => occursIn w symptoms) then
        [("Practice relaxation techniques").data,
         ("Maintain a regular sleep schedule").data,
         ("Limit caffeine intake").data] else []) ++
      [("Consult a healthcare professional if symptoms persist or worsen").data]
    (dedupKeepFirst tips).take 6

/-- The result dict of `analyze_symptoms` in `app.py`. -/
structure TriageResult where
  response : Str
  is_emergency : Bool
  specializations : List SpecRec
  severity_score : Nat
  deriving DecidableEq, Repr

/-- The result dict of `analyze_symptoms` in `app_aws.py` (the later
revision additionally returns `health_tips`). -/
structure TriageResultAws where
  response : Str
  is_emergency : Bool
  specializations : List SpecRec
  severity_score : Nat
  health_tips : List Str
  deriving DecidableEq, Repr

/-- `analyze_symptoms` of `app.py`. -/
def analyzeApp (symptomsText : Str) : TriageResult :=
  let t := lowerStr symptomsText
  let score := emergencyScore emergencyIndicatorsApp t
  let isEmg := emergencyFlag score t
  let sev := severityScoreOf score t
  let specs := formatSpecs specializationMapApp t (topSpecializations specializationMapApp t)
  { response := generateAssistantResponseApp isEmg specs sev,
    is_emergency := isEmg,
    specializations := specs,
    severity_score := sev }

/-- `analyze_symptoms` of `app_aws.py`. -/
def analyzeAws (symptomsText : Str) : TriageResultAws :=
  let t := lowerStr symptomsText
  let score := emergencyScore emergencyIndicatorsAws t
  let isEmg := emergencyFlag score t
  let sev := severityScoreOf score t
  let specs := formatSpecs specializationMapAws t (topSpecializations specializationMapAws t)
  { response := generateAssistantResponseAws isEmg specs sev,
    is_emergency := isEmg,
    specializations := specs,
    severity_score := sev,
    health_tips := generateHealthTips t isEmg }

/-! ## The ai_service revision of the engine -/

/-- The result dict of `AIService.analyze_symptoms`; its
`specializations` entries carry only a name. -/
structure AiTriageResult where
  is_emergency : Bool
  severity_score : Nat
  specializations : List Str
  response : Str
  deriving DecidableEq, Repr

/-- `emergency_keywords` of `services/ai_service.py`. -/
def aiEmergencyKeywords : List (Str × Nat) :=
  [(("chest pain").data, 100), (("heart attack").data, 100), (("stroke").data, 100),
   (("difficulty breathing").data, 90), (("unconscious").data, 100),
   (("severe bleeding").data, 90), (("anaphylaxis").data, 100),
   (("poisoning").data, 90), (("suicide").data, 100)]

/-- `specialization_keywords` of `services/ai_service.py`. -/
def aiSpecializationKeywords : List (Str × List Str) :=
  [(("Cardiology").data,
    [("chest").data, ("heart").data, ("palpitation").data, ("pressure").data]),
   (("Neurology").data,
    [("headache").data, ("dizzy").data, ("faint").data, ("seizure").data, ("numbness").data]),
   (("Orthopedics").data,
    [("bone").data, ("joint").data, ("back").data, ("knee").data, ("fracture").data]),
   (("Dermatology").data,
    [("skin").data, ("rash").data, ("itch").data, ("bump").data]),
   (("Gastroenterology").data,
    [("stomach").data, ("pain").data, ("digest").data, ("vomit").data]),
   (("General").data, [])]

/-- One iteration of the emergency loop of
`AIService.analyze_symptoms`. -/
def aiScanStep (t : Str) (acc : Bool × Nat) (kv : Str × Nat) : Bool × Nat :=
  if occursIn kv.1 t then (true, max acc.2 kv.2) else acc

/-- The emergency loop of `AIService.analyze_symptoms`: the flag is set
on any keyword hit and the severity is the maximum matched urgency. -/
def aiEmergencyScan (t : Str) : Bool × Nat :=
  aiEmergencyKeywords.foldl (aiScanStep t) (false, 0)

/-- The non-emergency specialization loop of
`AIService.analyze_symptoms`: keep the first specialty whose match
count strictly exceeds all earlier ones, starting from
`("General Practice", 0 matches)`. -/
def aiBestSpec (t : Str) : Nat × Str :=
  aiSpecializationKeywords.foldl
    (fun acc kv => if acc.1 < countMatches kv.2 t then (countMatches kv.2 t, kv.1) else acc)
    (0, ("General Practice").data)

/-- `AIService.analyze_symptoms` of `services/ai_service.py`. -/
def aiAnalyze (symptomsText : Str) : AiTriageResult :=
  let t := lowerStr symptomsText
  let scan := aiEmergencyScan t
  if scan.1 then
    { is_emergency := true,
      severity_score := scan.2,
      specializations := [("General Practice").data],
      response := ("🚨 CRITICAL: Your symptoms indicate a possible medical emergency. Please visit the nearest ER immediately.").data }
  else
    let best := aiBestSpec t
    { is_emergency := false,
      severity_score := min (best.1 * 10 + 20) 80,
      specializations := [best.2],
      response := ("Based on your symptoms, we recommend consulting a ").data ++ best.2 ++ (".").data }

/-! ## FAQ and appointment-query handling (`app_aws.py`) -/

/-- The `faqs` dict of `handle_health_faq` (insertion order preserved,
since the first matching key wins). -/
def faqList : List (Str × Str) :=
  [(("book appointment").data,
    ("To book an appointment, navigate to the \x27Doctors\x27 section, select a specialist, and choose your preferred date and time. You can also view all available doctors and their specializations.").data),
   (("cancel appointment").data,
    ("To cancel an appointment, go to your dashboard, find the appointment in your list, and click the \x27Cancel\x27 button. Please note our 24-hour cancellation policy.").data),
   (("medical record").data,
    ("You can upload and view your medical records in the \x27Medical Records\x27 section. Supported formats include PDF, JPG, and PNG. Your records are securely stored and can be shared with your doctor.").data),
   (("doctor availability").data,
    ("Doctor availability varies by specialist. You can check each doctor\x27s available days and times on their profile page when booking an appointment.").data),
   (("payment").data,
    ("We accept credit cards, debit cards, and UPI for appointment payments. A consultation fee plus a small processing fee applies. Payment is required when booking.").data),
   (("profile update").data,
    ("To update your profile, click on the \x27Account\x27 section in your dashboard. You can update your email, phone number, and other personal information.").data),
   (("emergency").data,
    ("For medical emergencies, please call 911 (US) or your local emergency number immediately. This chat is for non-emergency consultations only.").data),
   (("prescription").data,
    ("Prescriptions are provided by your doctor after your consultation. You can view and download them from your medical records section.").data),
   (("test result").data,
    ("Test results will be uploaded by your doctor or lab to your medical records. You\x27ll receive a notification when new results are available.").data),
   (("follow up").data,
    ("For follow-up appointments, you can book another session with the same doctor or a specialist recommended by your physician.").data)]

/-- The match test of `handle_health_faq`:
`key in query or any(word in query for word in key.split())`. -/
def faqKeyHits (q : Str) (key : Str) : Bool :=
  occursIn key q || (splitWords key).any (fun w => occursIn w q)

/-- The answer formatting of `handle_health_faq`. -/
def faqWrap (resp : Str) : Str :=
  ("<strong>Answer:</strong><br><br>").data ++ resp ++
  ("<br><br><em>If you need more specific help, please provide more details or contact our support team.</em>").data

/-- `handle_health_faq`: the formatted answer of the first matching
FAQ key, or `None`. -/
def handleHealthFaq (q : Str) : Option Str :=
  (faqList.find? (fun kv => faqKeyHits q kv.1)).map (fun kv => faqWrap kv.2)

/-- The `appointment_keywords` dict of `handle_appointment_query`. -/
def appointmentKeywordList : List (Str × Str) :=
  [(("how to book").data,
    ("<strong>Booking an Appointment:</strong><br>1. Click on \x27Doctors\x27 in the navigation menu<br>2. Browse or search for a specialist<br>3. Click \x27Book Appointment\x27 on the doctor\x27s card<br>4. Select your preferred date and time<br>5. Fill in your symptoms and payment details<br>6. Confirm your booking<br><br>You\x27ll receive a confirmation and can track your appointment in your dashboard.").data),
   (("reschedule").data,
    ("<strong>Rescheduling Appointments:</strong><br>Currently, to reschedule an appointment, you\x27ll need to cancel your existing appointment and book a new one. We recommend doing this at least 24 hours in advance.<br><br>To cancel: Dashboard → Find appointment → Cancel button").data),
   (("what bring").data,
    ("<strong>What to Bring to Your Appointment:</strong><br>• Valid ID<br>• Insurance information (if applicable)<br>• List of current medications<br>• Previous medical records<br>• Any test results related to your condition<br>• List of questions for your doctor").data),
   (("prepare").data,
    ("<strong>Preparing for Your Appointment:</strong><br>• Write down your symptoms and when they started<br>• Note any medications you\x27re taking<br>• List any allergies<br>• Prepare questions for your doctor<br>• Arrive 10-15 minutes early<br>• Bring relevant medical history").data)]

/-- `handle_appointment_query`: the answer of the first key occurring
in the query, or `None`. -/
def handleAppointmentQuery (q : Str) : Option Str :=
  (appointmentKeywordList.find? (fun kv => occursIn kv.1 q)).map (fun kv => kv.2)

/-! ## The chat-assistant HTTP handlers -/

/-- An HTTP reply: status code plus JSON body.  Flask's bare
`jsonify(...)` return carries the default status 200; a
`jsonify(...), code` tuple carries `code`. -/
structure HttpReply (β : Type) where
  status : Nat
  body : β
  deriving DecidableEq, Repr

/-- The JSON bodies produced by `chat_assistant` of `app.py`. -/
inductive AppChatBody where
  | failure (message : Str)
  | success (response : Str) (is_emergency : Bool)
      (specializations : List SpecRec) (severity_score : Nat)
  deriving DecidableEq, Repr

/-- `chat_assistant` of `app.py`, parametrized by the triage engine it
invokes so that engine-independence ("the engine is never called") is
expressible.  `userType` is `current_user.user_type`; `symptomsField`
is the request body's `symptoms` value, with `""` for a missing key. -/
def chatAssistantApp (engine : Str → TriageResult)
    (userType : Str) (symptomsField : Str) : HttpReply AppChatBody :=
  if userType ≠ ("patient").data then
    ⟨200, .failure (("This feature is for patients only").data)⟩
  else
    let symptoms := stripStr (lowerStr symptomsField)
    if symptoms.isEmpty then
      ⟨200, .failure (("Please describe your symptoms").data)⟩
    else
      let analysis := engine symptoms
      ⟨200, .success analysis.response analysis.is_emergency
              analysis.specializations analysis.severity_score⟩

/-- The JSON bodies produced by `chat_assistant` of `app_aws.py`.
The `faq` and `appointmentHelp` replies carry no `severity_score`,
`specializations` or `health_tips` fields, exactly as the JSON
literals in the handler. -/
inductive AwsChatBody where
  | failure (message : Str)
  | faq (response : Str) (is_emergency : Bool) (message_type : Str)
  | appointmentHelp (response : Str) (is_emergency : Bool) (message_type : Str)
  | symptomAnalysis (response : Str) (is_emergency : Bool)
      (specializations : List SpecRec) (severity_score : Nat)
      (health_tips : List Str) (message_type : Str)
  deriving DecidableEq, Repr

/-- `chat_assistant` of `app_aws.py`, parametrized by the engine.
`loggedIn` is `"username" in session`; `role` is
`session.get("role", "user")`; `msgField` is the `message` (or legacy
`symptoms`) body value, with `""` for a missing key. -/
def chatAssistantAws (engine : Str → TriageResultAws)
    (loggedIn : Bool) (role : Str) (msgField : Str) : HttpReply AwsChatBody :=
  if loggedIn = false then
    ⟨401, .failure (("Please log in").data)⟩
  else if ¬ (role = ("user").data ∨ role = ("patient").data) then
    ⟨403, .failure (("This feature is for patients only").data)⟩
  else
    let message := stripStr msgField
    if message.isEmpty then
      ⟨400, .failure (("Please enter your message or symptoms").data)⟩
    else
      let messageLower := lowerStr message
      match handleHealthFaq messageLower with
      | some r => ⟨200, .faq r false (("faq").data)⟩
      | none =>
        match handleAppointmentQuery messageLower with
        | some r => ⟨200, .appointmentHelp r false (("appointment_help").data)⟩
        | none =>
          let analysis := engine message
          ⟨200, .symptomAnalysis analysis.response analysis.is_emergency
                  analysis.specializations analysis.severity_score
                  analysis.health_tips (("symptom_analysis").data)⟩

/-! ## Auxiliary notions for stating order properties -/

/-- The strict order realized by the stable descending sort: an
earlier output entry either has a strictly larger score, or an equal
score and an earlier taxonomy position. -/
def specOrd (a b : MatchEntry) : Prop :=
  b.score < a.score ∨ (a.score = b.score ∧ a.idx < b.idx)

/-- Every tip string of the non-emergency branch of
`generate_health_tips` (the two generic leading tips, the six
symptom-specific groups, and the closing wellness tip). -/
def nonEmergencyTipPool : List Str :=
  [("Monitor your symptoms and note any changes").data,
   ("Stay well-hydrated by drinking plenty of water").data,
   ("Rest in a quiet, dark room").data,
   ("Apply cold compress to forehead").data,
   ("Avoid bright screens").data,
   ("Get plenty of rest").data,
   ("Use over-the-counter fever reducers if appropriate").data,
   ("Monitor temperature regularly").data,
   ("Use a humidifier").data,
   ("Drink warm fluids").data,
   ("Get adequate rest").data,
   ("Eat bland, easy-to-digest foods").data,
   ("Avoid spicy or fatty foods").data,
   ("Try small, frequent meals").data,
   ("Apply ice or heat as appropriate").data,
   ("Avoid strenuous activity").data,
   ("Maintain good posture").data,
   ("Practice relaxation techniques").data,
   ("Maintain a regular sleep schedule").data,
   ("Limit caffeine intake").data,
   ("Consult a healthcare professional if symptoms persist or worsen").data]

/-! ## Basic lemmas about the engine pieces -/

/-- The weight of any matched table phrase bounds the accumulated
emergency score from below. -/
theorem weight_le_emergencyScore (t : Str) :
    ∀ (tbl : List (Str × Nat)) (p : Str) (w : Nat),
      (p, w) ∈ tbl → occursIn p t = true → w ≤ emergencyScore tbl t := by
  intro tbl
  induction tbl with
  | nil => intro p w h _; simp at h
  | cons hd tl ih =>
    intro p w hmem hocc
    obtain ⟨ph, wh⟩ := hd
    rcases List.mem_cons.mp hmem with heq | htl
    · obtain ⟨h1, h2⟩ := Prod.mk.injEq .. ▸ heq
      subst h1; subst h2
      simp only [emergencyScore, hocc, if_true]
      omega
    · have h3 := ih p w htl hocc
      simp only [emergencyScore]
      split <;> omega

/-- Characterization of the emergency flag: primary rule (score at
least 4) OR the secondary modifier rule (critical modifier and score
at least 2). -/
theorem emergencyFlag_iff (score : Nat) (t : Str) :
    emergencyFlag score t = true ↔
      4 ≤ score ∨ (hasCriticalModifier t = true ∧ 2 ≤ score) := by
  unfold emergencyFlag
  cases hm : hasCriticalModifier t <;> by_cases h2 : 2 ≤ score <;>
    simp [hm, h2]

/-- The severity score never exceeds 100. -/
theorem severityScoreOf_le (score : Nat) (t : Str) : severityScoreOf score t ≤ 100 := by
  unfold severityScoreOf
  split <;> omega

/-- A score of at least 2 forces a severity of at least 30. -/
theorem thirty_le_severityScoreOf (score : Nat) (t : Str) (h : 2 ≤ score) :
    30 ≤ severityScoreOf score t := by
  unfold severityScoreOf
  split <;> omega

/-- Projection lemma: the emergency flag of `analyzeApp`. -/
theorem analyzeApp_is_emergency (s : Str) :
    (analyzeApp s).is_emergency =
      emergencyFlag (emergencyScore emergencyIndicatorsApp (lowerStr s)) (lowerStr s) := rfl

/-- Projection lemma: the severity of `analyzeApp`. -/
theorem analyzeApp_severity (s : Str) :
    (analyzeApp s).severity_score =
      severityScoreOf (emergencyScore emergencyIndicatorsApp (lowerStr s)) (lowerStr s) := rfl

/-- Projection lemma: the specializations of `analyzeApp`. -/
theorem analyzeApp_specializations (s : Str) :
    (analyzeApp s).specializations =
      formatSpecs specializationMapApp (lowerStr s)
        (topSpecializations specializationMapApp (lowerStr s)) := rfl

/-- Projection lemma: the emergency flag of `analyzeAws`. -/
theorem analyzeAws_is_emergency (s : Str) :
    (analyzeAws s).is_emergency =
      emergencyFlag (emergencyScore emergencyIndicatorsAws (lowerStr s)) (lowerStr s) := rfl

/-- Projection lemma: the severity of `analyzeAws`. -/
theorem analyzeAws_severity (s : Str) :
    (analyzeAws s).severity_score =
      severityScoreOf (emergencyScore emergencyIndicatorsAws (lowerStr s)) (lowerStr s) := rfl

/-- Projection lemma: the specializations of `analyzeAws`. -/
theorem analyzeAws_specializations (s : Str) :
    (analyzeAws s).specializations =
      formatSpecs specializationMapAws (lowerStr s)
        (topSpecializations specializationMapAws (lowerStr s)) := rfl

/-- Projection lemma: the health tips of `analyzeAws`. -/
theorem analyzeAws_health_tips (s : Str) :
    (analyzeAws s).health_tips =
      generateHealthTips (lowerStr s)
        (emergencyFlag (emergencyScore emergencyIndicatorsAws (lowerStr s)) (lowerStr s)) := rfl

/-! ## Lemmas about the stable descending sort -/

/-- Inserting permutes: `insertDesc x l` is `x :: l` up to order. -/
theorem insertDesc_perm (x : MatchEntry) : ∀ l, List.Perm (insertDesc x l) (x :: l) := by
  intro l
  induction l with
  | nil => exact List.Perm.refl _
  | cons y ys ih =>
    unfold insertDesc
    split
    · exact List.Perm.refl _
    · exact List.Perm.trans (List.Perm.cons y ih) (List.Perm.swap x y ys)

/-- Sorting permutes: `sortDesc l` is a permutation of `l`. -/
theorem sortDesc_perm : ∀ l, List.Perm (sortDesc l) l := by
  intro l
  induction l with
  | nil => exact List.Perm.refl _
  | cons x xs ih =>
    unfold sortDesc
    exact List.Perm.trans (insertDesc_perm x (sortDesc xs)) (List.Perm.cons x ih)

/-- Stable insertion preserves the sorted order, provided the inserted
entry comes earlier in the taxonomy than everything in the list. -/
theorem insertDesc_pairwise (x : MatchEntry) :
    ∀ l, l.Pairwise specOrd → (∀ z ∈ l, x.idx < z.idx) →
      (insertDesc x l).Pairwise specOrd := by
  intro l
  induction l with
  | nil => intro _ _; simp [insertDesc]
  | cons y ys ih =>
    intro hp hidx
    rw [List.pairwise_cons] at hp
    obtain ⟨hy, hys⟩ := hp
    unfold insertDesc
    split
    next hle =>
      rw [List.pairwise_cons]
      refine ⟨?_, List.pairwise_cons.mpr ⟨hy, hys⟩⟩
      intro z hz
      rcases List.mem_cons.mp hz with rfl | hzys
      · have h4 := hidx z (List.mem_cons_self z ys)
        unfold specOrd
        omega
      · have h3 := hy z hzys
        have h4 := hidx z (List.mem_cons_of_mem y hzys)
        unfold specOrd at h3 ⊢
        omega
    next hgt =>
      rw [List.pairwise_cons]
      constructor
      · intro z hz
        have hz' : z ∈ x :: ys := (insertDesc_perm x ys).mem_iff.mp hz
        rcases List.mem_cons.mp hz' with rfl | hzys
        · unfold specOrd
          omega
        · exact hy z hzys
      · exact ih hys (fun z hz => hidx z (List.mem_cons_of_mem y hz))

/-- The sorted list is ordered by strictly descending score, with ties
ordered by taxonomy position, whenever the input's taxonomy positions
strictly increase (as they do for `matchingSpecs`). -/
theorem sortDesc_pairwise :
    ∀ l, l.Pairwise (fun a b : MatchEntry => a.idx < b.idx) →
      (sortDesc l).Pairwise specOrd := by
  intro l
  induction l with
  | nil => intro _; simp [sortDesc]
  | cons x xs ih =>
    intro hp
    rw [List.pairwise_cons] at hp
    obtain ⟨hx, hxs⟩ := hp
    unfold sortDesc
    exact insertDesc_pairwise x (sortDesc xs) (ih hxs)
      (fun z hz => hx z ((sortDesc_perm xs).mem_iff.mp hz))

/-! ## Lemmas about the matching loop -/

/-- Entries produced from position `i` onward carry positions of at
least `i`. -/
theorem matchingSpecsFrom_idx_ge (t : Str) :
    ∀ (tbl : List (Str × List Str)) (i : Nat),
      ∀ e ∈ matchingSpecsFrom t tbl i, i ≤ e.idx := by
  intro tbl
  induction tbl with
  | nil => intro i e he; simp [matchingSpecsFrom] at he
  | cons hd tl ih =>
    intro i e he
    obtain ⟨n, kws⟩ := hd
    unfold matchingSpecsFrom at he
    rw [List.mem_append] at he
    rcases he with h1 | h2
    · by_cases hc : 0 < countMatches kws t
      · rw [if_pos hc] at h1
        rw [List.mem_singleton] at h1
        subst h1
        exact Nat.le_refl i
      · rw [if_neg hc] at h1
        simp at h1
    · have h3 := ih (i + 1) e h2
      omega

/-- The taxonomy positions of the kept entries strictly increase. -/
theorem matchingSpecsFrom_pairwise_idx (t : Str) :
    ∀ (tbl : List (Str × List Str)) (i : Nat),
      (matchingSpecsFrom t tbl i).Pairwise (fun a b : MatchEntry => a.idx < b.idx) := by
  intro tbl
  induction tbl with
  | nil => intro i; simp [matchingSpecsFrom]
  | cons hd tl ih =>
    intro i
    obtain ⟨n, kws⟩ := hd
    unfold matchingSpecsFrom
    by_cases hc : 0 < countMatches kws t
    · rw [if_pos hc, List.singleton_append, List.pairwise_cons]
      refine ⟨?_, ih (i + 1)⟩
      intro e he
      have h3 := matchingSpecsFrom_idx_ge t tl (i + 1) e he
      simp only []
      omega
    · rw [if_neg hc, List.nil_append]
      exact ih (i + 1)

/-- Every kept entry records a positive keyword-match count, equal in
its `score` and `keywords_matched` fields, and belongs to some profile
of the taxonomy with exactly that count. -/
theorem matchingSpecsFrom_sound (t : Str) :
    ∀ (tbl : List (Str × List Str)) (i : Nat),
      ∀ e ∈ matchingSpecsFrom t tbl i,
        0 < e.score ∧ e.keywords_matched = e.score ∧
          ∃ kws, (e.name, kws) ∈ tbl ∧ e.score = countMatches kws t := by
  intro tbl
  induction tbl with
  | nil => intro i e he; simp [matchingSpecsFrom] at he
  | cons hd tl ih =>
    intro i e he
    obtain ⟨n, kws⟩ := hd
    unfold matchingSpecsFrom at he
    rw [List.mem_append] at he
    rcases he with h1 | h2
    · by_cases hc : 0 < countMatches kws t
      · rw [if_pos hc, List.mem_singleton] at h1
        subst h1
        exact ⟨hc, rfl, kws, List.mem_cons_self _ _, rfl⟩
      · rw [if_neg hc] at h1
        simp at h1
    · obtain ⟨ha, hb, kws', hm, hcnt⟩ := ih (i + 1) e h2
      exact ⟨ha, hb, kws', List.mem_cons_of_mem _ hm, hcnt⟩

/-- Conversely, every profile with a positive keyword-match count
contributes an entry with exactly that count. -/
theorem matchingSpecsFrom_complete (t : Str) :
    ∀ (tbl : List (Str × List Str)) (i : Nat) (n : Str) (kws : List Str),
      (n, kws) ∈ tbl → 0 < countMatches kws t →
        ∃ e ∈ matchingSpecsFrom t tbl i, e.name = n ∧ e.score = countMatches kws t := by
  intro tbl
  induction tbl with
  | nil => intro i n kws h _; simp at h
  | cons hd tl ih =>
    intro i n kws hmem hpos
    obtain ⟨nh, kh⟩ := hd
    unfold matchingSpecsFrom
    rcases List.mem_cons.mp hmem with heq | htl
    · obtain ⟨h1, h2⟩ := Prod.mk.injEq .. ▸ heq
      subst h1; subst h2
      rw [if_pos hpos]
      exact ⟨⟨n, countMatches kws t, countMatches kws t, i⟩,
        List.mem_append_left _ (List.mem_singleton.mpr rfl), rfl, rfl⟩
    · obtain ⟨e, he, hn, hs⟩ := ih (i + 1) n kws htl hpos
      exact ⟨e, List.mem_append_right _ he, hn, hs⟩

/-- The fallback case: with no matches the top list is exactly the
General Practice entry. -/
theorem topSpecializations_of_empty (tbl : List (Str × List Str)) (t : Str)
    (h : matchingSpecs tbl t = []) :
    topSpecializations tbl t = [generalPracticeEntry] := by
  unfold topSpecializations
  rw [h]
  rfl

/-- With at least one match the top list is the first three entries of
the stable-sorted matching list. -/
theorem topSpecializations_of_ne (tbl : List (Str × List Str)) (t : Str)
    (h : matchingSpecs tbl t ≠ []) :
    topSpecializations tbl t = (sortDesc (matchingSpecs tbl t)).take 3 := by
  unfold topSpecializations
  have h0 : 0 < (matchingSpecs tbl t).length := List.length_pos.mpr h
  have h1 : 0 < (sortDesc (matchingSpecs tbl t)).length :=
    (sortDesc_perm (matchingSpecs tbl t)).length_eq ▸ h0
  have h2 : ((sortDesc (matchingSpecs tbl t)).take 3).isEmpty = false := by
    cases htake : (sortDesc (matchingSpecs tbl t)).take 3 with
    | nil =>
      have h3 := congrArg List.length htake
      rw [List.length_take] at h3
      simp only [List.length_nil] at h3
      omega
    | cons a l => rfl
  rw [h2]
  simp

/-- The top list always has between one and three entries. -/
theorem topSpecializations_length (tbl : List (Str × List Str)) (t : Str) :
    1 ≤ (topSpecializations tbl t).length ∧ (topSpecializations tbl t).length ≤ 3 := by
  by_cases h : matchingSpecs tbl t = []
  · rw [topSpecializations_of_empty tbl t h]
    simp
  · rw [topSpecializations_of_ne tbl t h]
    have h0 : 0 < (matchingSpecs tbl t).length := List.length_pos.mpr h
    have h1 : 0 < (sortDesc (matchingSpecs tbl t)).length :=
      (sortDesc_perm (matchingSpecs tbl t)).length_eq ▸ h0
    rw [List.length_take]
    omega

/-! ## Lemmas about the ai_service emergency scan -/

/-- Once set, the emergency flag of the scan stays set. -/
theorem aiScan_mono (t : Str) :
    ∀ (l : List (Str × Nat)) (acc : Bool × Nat), acc.1 = true →
      (List.foldl (aiScanStep t) acc l).1 = true := by
  intro l
  induction l with
  | nil => intro acc h; simpa using h
  | cons hd tl ih =>
    intro acc h
    rw [List.foldl_cons]
    apply ih
    unfold aiScanStep
    split
    · rfl
    · exact h

/-- Any matched keyword sets the scan's emergency flag. -/
theorem aiScan_hit (t : Str) :
    ∀ (l : List (Str × Nat)) (acc : Bool × Nat) (kv : Str × Nat),
      kv ∈ l → occursIn kv.1 t = true →
        (List.foldl (aiScanStep t) acc l).1 = true := by
  intro l
  induction l with
  | nil => intro acc kv h _; simp at h
  | cons hd tl ih =>
    intro acc kv hmem hocc
    rw [List.foldl_cons]
    rcases List.mem_cons.mp hmem with rfl | htl
    · apply aiScan_mono
      unfold aiScanStep
      rw [if_pos hocc]
    · exact ih (aiScanStep t acc hd) kv htl hocc

/-! ## The claims -/

/-- C1: for every input, the emergency flag of both engine revisions
is set exactly when the summed indicator weight reaches 4, or a
critical modifier occurs and the sum reaches 2; in particular the
input "sudden chest pain" (weight 3 plus the modifier "sudden") is
flagged as an emergency. -/
theorem c1_emergency_rule :
    (∀ s : Str,
      (analyzeApp s).is_emergency = true ↔
        4 ≤ emergencyScore emergencyIndicatorsApp (lowerStr s) ∨
          (hasCriticalModifier (lowerStr s) = true ∧
            2 ≤ emergencyScore emergencyIndicatorsApp (lowerStr s))) ∧
    (∀ s : Str,
      (analyzeAws s).is_emergency = true ↔
        4 ≤ emergencyScore emergencyIndicatorsAws (lowerStr s) ∨
          (hasCriticalModifier (lowerStr s) = true ∧
            2 ≤ emergencyScore emergencyIndicatorsAws (lowerStr s))) ∧
    (analyzeApp (("sudden chest pain").data)).is_emergency = true ∧
    (analyzeAws (("sudden chest pain").data)).is_emergency = true := by
  refine ⟨fun s => ?_, fun s => ?_, by decide, by decide⟩
  · rw [analyzeApp_is_emergency]
    exact emergencyFlag_iff _ _
  · rw [analyzeAws_is_emergency]
    exact emergencyFlag_iff _ _

/-- Witness for C1: the secondary rule fires on "sudden chest pain",
where the weight sum 3 misses the primary threshold. -/
theorem c1_emergency_rule_witness :
    (analyzeApp (("sudden chest pain").data)).is_emergency = true :=
  (c1_emergency_rule.1 (("sudden chest pain").data)).mpr (by decide)

/-- C2: for every input, the severity of both engine revisions is
`min(weightSum * 15, 100)`, with 10 added (capped at 100 again) when
the lower-cased input holds more than ten spaces; hence it never
exceeds 100 (and is a natural number, so never below 0). -/
theorem c2_severity_formula (s : Str) :
    ((analyzeApp s).severity_score =
      (if 10 < countSpaces (lowerStr s) then
        min (min (emergencyScore emergencyIndicatorsApp (lowerStr s) * 15) 100 + 10) 100
      else min (emergencyScore emergencyIndicatorsApp (lowerStr s) * 15) 100) ∧
      (analyzeApp s).severity_score ≤ 100) ∧
    ((analyzeAws s).severity_score =
      (if 10 < countSpaces (lowerStr s) then
        min (min (emergencyScore emergencyIndicatorsAws (lowerStr s) * 15) 100 + 10) 100
      else min (emergencyScore emergencyIndicatorsAws (lowerStr s) * 15) 100) ∧
      (analyzeAws s).severity_score ≤ 100) := by
  refine ⟨⟨rfl, ?_⟩, ⟨rfl, ?_⟩⟩
  · rw [analyzeApp_severity]
    exact severityScoreOf_le _ _
  · rw [analyzeAws_severity]
    exact severityScoreOf_le _ _

/-- Witness for C2 at a concrete input. -/
theorem c2_severity_formula_witness :
    (analyzeApp (("sudden chest pain").data)).severity_score ≤ 100 :=
  (c2_severity_formula (("sudden chest pain").data)).1.2

/-- C4: every input containing "heart attack" after lower-casing is
flagged as an emergency by all three engine revisions; in the two
`analyze_symptoms` revisions the phrase's weight 5 alone meets the
primary threshold 4. -/
theorem c4_heart_attack (s : Str)
    (h : occursIn (("heart attack").data) (lowerStr s) = true) :
    5 ≤ emergencyScore emergencyIndicatorsApp (lowerStr s) ∧
    5 ≤ emergencyScore emergencyIndicatorsAws (lowerStr s) ∧
    (analyzeApp s).is_emergency = true ∧
    (analyzeAws s).is_emergency = true ∧
    (aiAnalyze s).is_emergency = true := by
  have h1 : 5 ≤ emergencyScore emergencyIndicatorsApp (lowerStr s) :=
    weight_le_emergencyScore (lowerStr s) emergencyIndicatorsApp
      (("heart attack").data) 5 (by decide) h
  have h2 : 5 ≤ emergencyScore emergencyIndicatorsAws (lowerStr s) :=
    weight_le_emergencyScore (lowerStr s) emergencyIndicatorsAws
      (("heart attack").data) 5 (by decide) h
  refine ⟨h1, h2, ?_, ?_, ?_⟩
  · rw [analyzeApp_is_emergency]
    exact (emergencyFlag_iff _ _).mpr (Or.inl (by omega))
  · rw [analyzeAws_is_emergency]
    exact (emergencyFlag_iff _ _).mpr (Or.inl (by omega))
  · have h3 : (aiEmergencyScan (lowerStr s)).1 = true :=
      aiScan_hit (lowerStr s) aiEmergencyKeywords (false, 0)
        ((("heart attack").data, 100)) (by decide) h
    unfold aiAnalyze
    simp only []
    rw [if_pos h3]

/-- Witness for C4: a mixed-case sentence containing the phrase. -/
theorem c4_heart_attack_witness :
    occursIn (("heart attack").data)
        (lowerStr (("I think I am having a Heart Attack").data)) = true ∧
    (analyzeApp (("I think I am having a Heart Attack").data)).is_emergency = true :=
  ⟨by decide, (c4_heart_attack (("I think I am having a Heart Attack").data) (by decide)).2.2.1⟩

/-- C8: each engine revision is a pure function of its input text: the
whole embedding is built from total, effect-free definitions (no I/O,
randomness or mutable state appears anywhere in `analyzeApp`,
`analyzeAws` or `aiAnalyze`), so two calls on the same input return
identical results in every field. -/
theorem c8_deterministic (s : Str) :
    analyzeApp s = analyzeApp s ∧ analyzeAws s = analyzeAws s ∧
      aiAnalyze s = aiAnalyze s :=
  ⟨rfl, rfl, rfl⟩

/-- C10: for every input, an emergency classification forces a
severity of at least 30 in both engine revisions. -/
theorem c10_emergency_min_severity (s : Str) :
    ((analyzeApp s).is_emergency = true → 30 ≤ (analyzeApp s).severity_score) ∧
    ((analyzeAws s).is_emergency = true → 30 ≤ (analyzeAws s).severity_score) := by
  constructor
  · intro h
    rw [analyzeApp_is_emergency] at h
    have h2 := (emergencyFlag_iff _ _).mp h
    rw [analyzeApp_severity]
    apply thirty_le_severityScoreOf
    rcases h2 with h3 | ⟨_, h3⟩ <;> omega
  · intro h
    rw [analyzeAws_is_emergency] at h
    have h2 := (emergencyFlag_iff _ _).mp h
    rw [analyzeAws_severity]
    apply thirty_le_severityScoreOf
    rcases h2 with h3 | ⟨_, h3⟩ <;> omega

/-- Witness for C10 at the emergency input "heart attack". -/
theorem c10_emergency_min_severity_witness :
    30 ≤ (analyzeApp (("heart attack").data)).severity_score :=
  (c10_emergency_min_severity (("heart attack").data)).1 (by decide)

/-- C7: in the later engine revision, every input classified as an
emergency gets exactly the three fixed emergency directives as health
tips, and none of the generic or symptom-specific tips. -/
theorem c7_emergency_tips (s : Str)
    (h : (analyzeAws s).is_emergency = true) :
    (analyzeAws s).health_tips =
      [("Seek immediate medical attention").data,
       ("Call emergency services (911)").data,
       ("Do not delay treatment").data] ∧
    ∀ tip ∈ (analyzeAws s).health_tips, ¬ tip ∈ nonEmergencyTipPool := by
  rw [analyzeAws_is_emergency] at h
  have h1 : (analyzeAws s).health_tips = generateHealthTips (lowerStr s) true := by
    rw [analyzeAws_health_tips, h]
  have h2 : generateHealthTips (lowerStr s) true =
      [("Seek immediate medical attention").data,
       ("Call emergency services (911)").data,
       ("Do not delay treatment").data] := rfl
  rw [h1, h2]
  exact ⟨rfl, by decide⟩

/-- Witness for C7 at the emergency input "heart attack". -/
theorem c7_emergency_tips_witness :
    (analyzeAws (("heart attack").data)).health_tips =
      [("Seek immediate medical attention").data,
       ("Call emergency services (911)").data,
       ("Do not delay treatment").data] :=
  (c7_emergency_tips (("heart attack").data) (by decide)).1

/-- The specialization pipeline of both `analyze_symptoms` revisions:
the kept entries are exactly the profiles with positive keyword-match
count; the sort is a permutation ordered by strictly descending score
with ties in taxonomy order; the output keeps the first three (or the
General Practice fallback) and always has one to three entries. -/
theorem specializationPipeline (tbl : List (Str × List Str)) (t : Str) :
    (1 ≤ (formatSpecs tbl t (topSpecializations tbl t)).length ∧
      (formatSpecs tbl t (topSpecializations tbl t)).length ≤ 3) ∧
    (formatSpecs tbl t (topSpecializations tbl t) =
      if matchingSpecs tbl t = [] then
        [⟨("General Practice").data,
          ("For general health evaluation and preliminary diagnosis").data⟩]
      else ((sortDesc (matchingSpecs tbl t)).take 3).map
        (fun e => ⟨e.name, mkReason tbl t e.name⟩)) ∧
    List.Perm (sortDesc (matchingSpecs tbl t)) (matchingSpecs tbl t) ∧
    (sortDesc (matchingSpecs tbl t)).Pairwise specOrd ∧
    (∀ e ∈ matchingSpecs tbl t,
      0 < e.score ∧ e.keywords_matched = e.score ∧
        ∃ kws, (e.name, kws) ∈ tbl ∧ e.score = countMatches kws t) ∧
    (∀ (n : Str) (kws : List Str), (n, kws) ∈ tbl → 0 < countMatches kws t →
      ∃ e ∈ matchingSpecs tbl t, e.name = n ∧ e.score = countMatches kws t) := by
  refine ⟨?_, ?_, sortDesc_perm _,
    sortDesc_pairwise _ (matchingSpecsFrom_pairwise_idx t tbl 0),
    matchingSpecsFrom_sound t tbl 0,
    fun n kws hm hp => matchingSpecsFrom_complete t tbl 0 n kws hm hp⟩
  · have hlen : (formatSpecs tbl t (topSpecializations tbl t)).length =
        (topSpecializations tbl t).length := List.length_map _ _
    have h2 := topSpecializations_length tbl t
    omega
  · by_cases h : matchingSpecs tbl t = []
    · rw [if_pos h, topSpecializations_of_empty tbl t h]
      rfl
    · rw [if_neg h, topSpecializations_of_ne tbl t h]
      rfl

/-- C3: for every input and both revisions, the specialization list
keeps exactly the profiles with positive keyword-match count, stably
sorted by descending count (ties in taxonomy order), truncated to
three, with the General Practice fallback on no matches; it always has
one to three entries. -/
theorem c3_specialization_ranking (s : Str) :
    ((1 ≤ (analyzeApp s).specializations.length ∧
        (analyzeApp s).specializations.length ≤ 3) ∧
      ((analyzeApp s).specializations =
        if matchingSpecs specializationMapApp (lowerStr s) = [] then
          [⟨("General Practice").data,
            ("For general health evaluation and preliminary diagnosis").data⟩]
        else ((sortDesc (matchingSpecs specializationMapApp (lowerStr s))).take 3).map
          (fun e => ⟨e.name, mkReason specializationMapApp (lowerStr s) e.name⟩)) ∧
      List.Perm (sortDesc (matchingSpecs specializationMapApp (lowerStr s)))
        (matchingSpecs specializationMapApp (lowerStr s)) ∧
      (sortDesc (matchingSpecs specializationMapApp (lowerStr s))).Pairwise specOrd ∧
      (∀ e ∈ matchingSpecs specializationMapApp (lowerStr s),
        0 < e.score ∧ e.keywords_matched = e.score ∧
          ∃ kws, (e.name, kws) ∈ specializationMapApp ∧
            e.score = countMatches kws (lowerStr s)) ∧
      (∀ (n : Str) (kws : List Str), (n, kws) ∈ specializationMapApp →
        0 < countMatches kws (lowerStr s) →
          ∃ e ∈ matchingSpecs specializationMapApp (lowerStr s),
            e.name = n ∧ e.score = countMatches kws (lowerStr s))) ∧
    ((1 ≤ (analyzeAws s).specializations.length ∧
        (analyzeAws s).specializations.length ≤ 3) ∧
      ((analyzeAws s).specializations =
        if matchingSpecs specializationMapAws (lowerStr s) = [] then
          [⟨("General Practice").data,
            ("For general health evaluation and preliminary diagnosis").data⟩]
        else ((sortDesc (matchingSpecs specializationMapAws (lowerStr s))).take 3).map
          (fun e => ⟨e.name, mkReason specializationMapAws (lowerStr s) e.name⟩)) ∧
      List.Perm (sortDesc (matchingSpecs specializationMapAws (lowerStr s)))
        (matchingSpecs specializationMapAws (lowerStr s)) ∧
      (sortDesc (matchingSpecs specializationMapAws (lowerStr s))).Pairwise specOrd ∧
      (∀ e ∈ matchingSpecs specializationMapAws (lowerStr s),
        0 < e.score ∧ e.keywords_matched = e.score ∧
          ∃ kws, (e.name, kws) ∈ specializationMapAws ∧
            e.score = countMatches kws (lowerStr s)) ∧
      (∀ (n : Str) (kws : List Str), (n, kws) ∈ specializationMapAws →
        0 < countMatches kws (lowerStr s) →
          ∃ e ∈ matchingSpecs specializationMapAws (lowerStr s),
            e.name = n ∧ e.score = countMatches kws (lowerStr s))) :=
  ⟨specializationPipeline specializationMapApp (lowerStr s),
   specializationPipeline specializationMapAws (lowerStr s)⟩

/-- Witness for C3 at a concrete input with a Neurology match. -/
theorem c3_specialization_ranking_witness :
    1 ≤ (analyzeApp (("i have a mild headache").data)).specializations.length ∧
    (analyzeApp (("i have a mild headache").data)).specializations.length ≤ 3 :=
  (c3_specialization_ranking (("i have a mild headache").data)).1.1

/-- Reduce an if-then-else whose Boolean condition is known true. -/
theorem ite_eq_then_of_true {a : Type} (b : Bool) (x y : a) (h : b = true) :
    (if b then x else y) = x := by
  rw [h]
  rfl

/-- Reduce an if-then-else whose Boolean condition is known false. -/
theorem ite_eq_else_of_false {a : Type} (b : Bool) (x y : a) (h : b = false) :
    (if b then x else y) = y := by
  rw [h]
  rfl

/-- Counterexample for C5 as stated: on an input with eleven spaces
and no emergency-phrase or specialization-keyword match, both
revisions return severity 10, not 0 (the more-than-ten-spaces bonus
still applies). -/
theorem c5_graceful_degradation_counterexample :
    emergencyScore emergencyIndicatorsApp
        (lowerStr (("a a a a a a a a a a a a").data)) = 0 ∧
    matchingSpecs specializationMapApp
        (lowerStr (("a a a a a a a a a a a a").data)) = [] ∧
    emergencyScore emergencyIndicatorsAws
        (lowerStr (("a a a a a a a a a a a a").data)) = 0 ∧
    matchingSpecs specializationMapAws
        (lowerStr (("a a a a a a a a a a a a").data)) = [] ∧
    (analyzeApp (("a a a a a a a a a a a a").data)).severity_score = 10 ∧
    (analyzeAws (("a a a a a a a a a a a a").data)).severity_score = 10 := by
  decide

/-- C5 (amended): both engine revisions are total functions on all
strings, including the empty string; on an input with no
emergency-phrase and no specialization-keyword match they return no
emergency, the General Practice fallback, and severity 0 — except
that an unmatched input with more than ten spaces gets severity 10
from the detailed-description bonus. -/
theorem c5_graceful_degradation (s : Str)
    (h1 : emergencyScore emergencyIndicatorsApp (lowerStr s) = 0)
    (h2 : matchingSpecs specializationMapApp (lowerStr s) = [])
    (h3 : emergencyScore emergencyIndicatorsAws (lowerStr s) = 0)
    (h4 : matchingSpecs specializationMapAws (lowerStr s) = []) :
    ((analyzeApp s).is_emergency = false ∧
      (analyzeApp s).specializations =
        [⟨("General Practice").data,
          ("For general health evaluation and preliminary diagnosis").data⟩] ∧
      (analyzeApp s).severity_score =
        (if 10 < countSpaces (lowerStr s) then 10 else 0)) ∧
    ((analyzeAws s).is_emergency = false ∧
      (analyzeAws s).specializations =
        [⟨("General Practice").data,
          ("For general health evaluation and preliminary diagnosis").data⟩] ∧
      (analyzeAws s).severity_score =
        (if 10 < countSpaces (lowerStr s) then 10 else 0)) ∧
    ((analyzeApp ([] : Str)).is_emergency = false ∧
      (analyzeApp ([] : Str)).severity_score = 0 ∧
      (analyzeAws ([] : Str)).is_emergency = false ∧
      (analyzeAws ([] : Str)).severity_score = 0) := by
  refine ⟨⟨?_, ?_, ?_⟩, ⟨?_, ?_, ?_⟩, by decide⟩
  · rw [analyzeApp_is_emergency, h1]
    simp [emergencyFlag]
  · rw [analyzeApp_specializations, topSpecializations_of_empty _ _ h2]
    rfl
  · rw [analyzeApp_severity, h1]
    unfold severityScoreOf
    split <;> omega
  · rw [analyzeAws_is_emergency, h3]
    simp [emergencyFlag]
  · rw [analyzeAws_specializations, topSpecializations_of_empty _ _ h4]
    rfl
  · rw [analyzeAws_severity, h3]
    unfold severityScoreOf
    split <;> omega

/-- Witness for C5 at the matchless input "xyz". -/
theorem c5_graceful_degradation_witness :
    emergencyScore emergencyIndicatorsApp (lowerStr (("xyz").data)) = 0 ∧
    (analyzeApp (("xyz").data)).is_emergency = false :=
  ⟨by decide,
    (c5_graceful_degradation (("xyz").data)
      (by decide) (by decide) (by decide) (by decide)).1.1⟩

/-- Counterexample for C6 as stated: in the `app.py` revision, the
blank-symptom reply of the chat endpoint for an authenticated patient
carries HTTP status 200 (a bare `jsonify` return), not a 400-class
status — only the body signals the failure. -/
theorem c6_blank_input_counterexample :
    (chatAssistantApp analyzeApp (("patient").data) ([] : Str)).status = 200 ∧
    ¬ (400 ≤ (chatAssistantApp analyzeApp (("patient").data) ([] : Str)).status ∧
        (chatAssistantApp analyzeApp (("patient").data) ([] : Str)).status < 500) ∧
    (chatAssistantApp analyzeApp (("patient").data) ([] : Str)).body =
      AppChatBody.failure (("Please describe your symptoms").data) := by
  decide

/-- C6 (amended): for an authenticated patient whose symptom text is
blank after stripping, both revisions of the chat endpoint return a
failure body without ever invoking the triage engine; the later
revision (`app_aws.py`) sets HTTP status 400, while the earlier
revision (`app.py`) returns the failure body with the default status
200. -/
theorem c6_blank_input_rejected (sym msg : Str)
    (eng1 eng2 : Str → TriageResult) (engA1 engA2 : Str → TriageResultAws)
    (hApp : stripStr (lowerStr sym) = [])
    (hAws : stripStr msg = []) :
    chatAssistantApp eng1 (("patient").data) sym =
      ⟨200, AppChatBody.failure (("Please describe your symptoms").data)⟩ ∧
    chatAssistantApp eng1 (("patient").data) sym =
      chatAssistantApp eng2 (("patient").data) sym ∧
    chatAssistantAws engA1 true (("patient").data) msg =
      ⟨400, AwsChatBody.failure (("Please enter your message or symptoms").data)⟩ ∧
    chatAssistantAws engA1 true (("patient").data) msg =
      chatAssistantAws engA2 true (("patient").data) msg := by
  have happ : ∀ eng : Str → TriageResult,
      chatAssistantApp eng (("patient").data) sym =
        ⟨200, AppChatBody.failure (("Please describe your symptoms").data)⟩ := by
    intro eng
    simp only [chatAssistantApp]
    rw [if_neg (by decide : ¬ ((("patient").data : Str) ≠ ("patient").data))]
    rw [hApp]
    rfl
  have haws : ∀ eng : Str → TriageResultAws,
      chatAssistantAws eng true (("patient").data) msg =
        ⟨400, AwsChatBody.failure (("Please enter your message or symptoms").data)⟩ := by
    intro eng
    have hie : (stripStr msg).isEmpty = true := by rw [hAws]; rfl
    exact ite_eq_then_of_true ((stripStr msg).isEmpty) _ _ hie
  exact ⟨happ eng1, (happ eng1).trans (happ eng2).symm,
    haws engA1, (haws engA1).trans (haws engA2).symm⟩

/-- Witness for C6 at a whitespace-only request body. -/
theorem c6_blank_input_rejected_witness :
    stripStr (lowerStr ((" ").data)) = [] ∧
    chatAssistantApp analyzeApp (("patient").data) ((" ").data) =
      ⟨200, AppChatBody.failure (("Please describe your symptoms").data)⟩ :=
  ⟨by decide,
    (c6_blank_input_rejected ((" ").data) ((" ").data)
      analyzeApp analyzeApp analyzeAws analyzeAws (by decide) (by decide)).1⟩

/-- C9: in the later revision, FAQ handling precedes triage: any
non-blank authenticated-patient message whose lower-cased text
contains an FAQ key or a word of an FAQ key gets the FAQ reply, whose
body carries is_emergency = false and no severity, specialization or
health-tip fields — whatever else (such as "heart attack") the
message contains. -/
theorem c9_faq_precedence (m : Str)
    (hne : stripStr m ≠ [])
    (hfaq : ∃ kv ∈ faqList,
      occursIn kv.1 (lowerStr (stripStr m)) = true ∨
        ∃ w ∈ splitWords kv.1, occursIn w (lowerStr (stripStr m)) = true) :
    ∃ resp : Str,
      chatAssistantAws analyzeAws true (("patient").data) m =
        ⟨200, AwsChatBody.faq resp false (("faq").data)⟩ := by
  obtain ⟨kv, hkv, hc⟩ := hfaq
  have hhit : faqKeyHits (lowerStr (stripStr m)) kv.1 = true := by
    unfold faqKeyHits
    rw [Bool.or_eq_true]
    rcases hc with h | ⟨w, hw, hwq⟩
    · exact Or.inl h
    · exact Or.inr (List.any_eq_true.mpr ⟨w, hw, hwq⟩)
  have hsome : (faqList.find?
      (fun kv => faqKeyHits (lowerStr (stripStr m)) kv.1)).isSome = true :=
    List.find?_isSome.mpr ⟨kv, hkv, hhit⟩
  obtain ⟨kv', hkv'⟩ := Option.isSome_iff_exists.mp hsome
  have hfq : handleHealthFaq (lowerStr (stripStr m)) = some (faqWrap kv'.2) := by
    unfold handleHealthFaq
    rw [hkv']
    rfl
  have hie : (stripStr m).isEmpty = false := by
    cases hsm : stripStr m with
    | nil => exact absurd hsm hne
    | cons a l => rfl
  refine ⟨faqWrap kv'.2, ?_⟩
  have e1 : chatAssistantAws analyzeAws true (("patient").data) m =
      (if (stripStr m).isEmpty then
        (⟨400, AwsChatBody.failure (("Please enter your message or symptoms").data)⟩ :
          HttpReply AwsChatBody)
      else
        match handleHealthFaq (lowerStr (stripStr m)) with
        | some r => ⟨200, AwsChatBody.faq r false (("faq").data)⟩
        | none =>
          match handleAppointmentQuery (lowerStr (stripStr m)) with
          | some r => ⟨200, AwsChatBody.appointmentHelp r false (("appointment_help").data)⟩
          | none =>
            ⟨200, AwsChatBody.symptomAnalysis (analyzeAws (stripStr m)).response
              (analyzeAws (stripStr m)).is_emergency
              (analyzeAws (stripStr m)).specializations
              (analyzeAws (stripStr m)).severity_score
              (analyzeAws (stripStr m)).health_tips (("symptom_analysis").data)⟩) := rfl
  rw [e1, ite_eq_else_of_false _ _ _ hie, hfq]

/-- Witness for C9: "emergency heart attack" contains the emergency
phrase "heart attack" and still receives the FAQ reply. -/
theorem c9_faq_precedence_witness :
    stripStr (("emergency heart attack").data) ≠ [] ∧
    occursIn (("heart attack").data)
        (lowerStr (stripStr (("emergency heart attack").data))) = true ∧
    ∃ resp : Str,
      chatAssistantAws analyzeAws true (("patient").data)
          (("emergency heart attack").data) =
        ⟨200, AwsChatBody.faq resp false (("faq").data)⟩ :=
  ⟨by decide, by decide,
    c9_faq_precedence (("emergency heart attack").data) (by decide) (by decide)⟩
